import Mathlib

/-!
Verification of the OAK-D demo script (`skeleton.py`): a shallow embedding of
the pipeline builder (`setup_pipeline`) and the host polling/render loop
(`upload_pipeline`), with theorems about their behaviour.

Conventions of the embedding:
* frames, detection records and NN metadata payloads are abstract identifiers
  (natural numbers);
* `time.monotonic()` readings are rationals;
* the Python float division `counter / (time.monotonic() - startTime)` raises
  `ZeroDivisionError` when the elapsed time is zero, so the corresponding
  Lean code returns `Option`, with `none` for the crash;
* side effects (`displayFrame`, `print_neural_network_layer_names`) are
  reified as an ordered list of `Event`s emitted by each loop iteration.
-/

namespace OakD

/-- A raw image payload (`getCvFrame()` result), abstracted to an id. -/
abbrev RawFrame := Nat

/-- A single detection record (bounding box / label / confidence), abstracted. -/
abbrev Detection := Nat

/-- An unparsed inference-metadata payload (`inNN`), abstracted. -/
abbrev NNData := Nat

/-! ## Pipeline builder (`setup_pipeline`, skeleton.py lines 17-93) -/

/-- Configuration constants read from `dai_tools.config`. -/
structure Config where
  COLOR_CAMERA_PREVIEW_SIZE : Nat × Nat
  CAMERA_INTERLEAVED : Bool
  NN_THRESHOLD : ℚ
  INFERENCE_THREADS : Nat
  MOBILENET_DETECTION_MODEL_PATH : String
  COLOR_CAMERA_QUEUE_SIZE : Nat
  QUEUE_BLOCKING : Bool
  TEXT_COLOR2 : Nat × Nat × Nat
  PRINT_NEURAL_NETWORK_METADATA : Bool
  deriving DecidableEq, Repr

/-- Properties set on one `dai.node.MonoCamera`. -/
structure MonoCamProps where
  boardSocket : String
  resolution : String
  deriving DecidableEq, Repr

/-- Properties set on the `dai.node.ColorCamera`. -/
structure ColorCamProps where
  previewSize : Nat × Nat
  interleaved : Bool
  colorOrder : String
  deriving DecidableEq, Repr

/-- Properties set on the `dai.node.MobileNetDetectionNetwork`. -/
structure NNProps where
  confidenceThreshold : ℚ
  numInferenceThreads : Nat
  blobPath : String
  inputBlocking : Bool
  deriving DecidableEq, Repr

/-- The declarative pipeline description produced by `setup_pipeline`:
nodes with their configured properties, the stream names assigned to the
`XLinkOut` nodes, and the directed links between node ports. -/
structure PipelineDesc where
  openvinoVersion : String
  monoCamLeftNode : MonoCamProps
  monoCamRightNode : MonoCamProps
  rgbCamNode : ColorCamProps
  nn : NNProps
  streamNames : List String
  links : List (String × String)
  deriving DecidableEq, Repr

/-- `setup_pipeline` (skeleton.py lines 17-93): build the pipeline
description from the configuration.  Pure: no effect beyond constructing
the returned value. -/
def setup_pipeline (cfg : Config) : PipelineDesc :=
  { openvinoVersion := "VERSION_2022_1"
    monoCamLeftNode := { boardSocket := "LEFT", resolution := "THE_480_P" }
    monoCamRightNode := { boardSocket := "RIGHT", resolution := "THE_480_P" }
    rgbCamNode :=
      { previewSize := cfg.COLOR_CAMERA_PREVIEW_SIZE
        interleaved := cfg.CAMERA_INTERLEAVED
        colorOrder := "RGB" }
    nn :=
      { confidenceThreshold := cfg.NN_THRESHOLD
        numInferenceThreads := cfg.INFERENCE_THREADS
        blobPath := cfg.MOBILENET_DETECTION_MODEL_PATH
        inputBlocking := false }
    streamNames := ["Left", "Right", "RGB", "nn", "nnNet"]
    links :=
      [("monoCamLeftNode.out", "xOutLeft.input"),
       ("monoCamRightNode.out", "xOutRight.input"),
       ("rgbCamNode.preview", "xOutRGB.input"),
       ("rgbCamNode.preview", "nn.input"),
       ("nn.out", "nnOut.input"),
       ("nn.outNetwork", "nnNetworkOut.input")] }

/-! ## Host loop (`upload_pipeline`, skeleton.py lines 148-196) -/

/-- The color frame held in `clrFrame` after `cv2.putText` has drawn the
FPS overlay onto it: the raw frame plus the FPS value baked into the image. -/
structure ClrFrame where
  raw : RawFrame
  fps : ℚ
  deriving DecidableEq, Repr

/-- The mutable host-loop state (`clrFrame`, `detections`, `counter`,
`printOutputLayersOnce`; skeleton.py lines 137-145). -/
structure LoopState where
  clrFrame : Option ClrFrame
  detections : List Detection
  counter : Nat
  printOutputLayersOnce : Bool
  deriving DecidableEq, Repr

/-- What one loop iteration observes: the five non-blocking `tryGet` results,
the `cv2.waitKey(1)` key code, and the `time.monotonic()` reading taken at
the FPS computation. -/
structure TickInput where
  leftMsg : Option RawFrame
  rightMsg : Option RawFrame
  rgbMsg : Option RawFrame
  detMsg : Option (List Detection)
  nnMsg : Option NNData
  key : Nat
  now : ℚ
  deriving DecidableEq, Repr

/-- An observable side effect of one loop iteration: a `displayFrame` call
(window name, raw frame, FPS text drawn on the frame if any, detections to
overlay) or the diagnostic `print_neural_network_layer_names` call. -/
inductive Event where
  | displayFrame (window : String) (frame : RawFrame) (fpsOverlay : Option ℚ)
      (dets : List Detection)
  | printLayerNames (nnData : NNData)
  deriving DecidableEq, Repr

/-- Key code of the quit key: `ord('q')`. -/
def ordQ : Nat := 113

/-- `displayFrame` calls for the left/right mono frames (skeleton.py lines
159-166): each retrieved mono frame is shown immediately with `[]` as the
detections argument. -/
def leftRightEvents (leftMsg rightMsg : Option RawFrame) : List Event :=
  (match leftMsg with
   | some f => [Event.displayFrame "Left" f none []]
   | none => []) ++
  (match rightMsg with
   | some f => [Event.displayFrame "Right" f none []]
   | none => [])

/-- The `RGBFrames` branch (skeleton.py lines 168-177): when a color frame
arrived, replace `clrFrame` and draw `counter / (now - startTime)` onto it;
the division raises `ZeroDivisionError` (modelled as `none`) when the
elapsed time is zero.  When no color frame arrived, `clrFrame` is kept. -/
def processRGB (startTime now : ℚ) (counter : Nat) (clr : Option ClrFrame)
    (rgbMsg : Option RawFrame) : Option (Option ClrFrame) :=
  match rgbMsg with
  | none => some clr
  | some f =>
    let elapsed := now - startTime
    if elapsed = 0 then none
    else some (some { raw := f, fps := (counter : ℚ) / elapsed })

/-- The `inDet` branch, detections part (skeleton.py line 182): a detection
message replaces `detections` wholesale; absence keeps the old value. -/
def detUpdate (old : List Detection) (detMsg : Option (List Detection)) :
    List Detection :=
  match detMsg with
  | some ds => ds
  | none => old

/-- The `inDet` branch, counter part (skeleton.py line 183): the counter
increments by one per detection message, else stays. -/
def counterUpdate (old : Nat) (detMsg : Option (List Detection)) : Nat :=
  match detMsg with
  | some _ => old + 1
  | none => old

/-- The `printOutputLayersOnce and inNN is not None` branch, effect part
(skeleton.py line 188). -/
def nnPrintEvents (flag : Bool) (nnMsg : Option NNData) : List Event :=
  match flag, nnMsg with
  | true, some d => [Event.printLayerNames d]
  | _, _ => []

/-- The `printOutputLayersOnce and inNN is not None` branch, flag part
(skeleton.py line 189): the flag is cleared after the dump and otherwise
kept. -/
def flagUpdate (flag : Bool) (nnMsg : Option NNData) : Bool :=
  match flag, nnMsg with
  | true, some _ => false
  | b, _ => b

/-- The final `if clrFrame is not None` display (skeleton.py lines 192-193):
whenever a color frame is held (from this tick or any earlier one), it is
shown with the current `detections` passed as the overlay argument. -/
def rgbRenderEvents (clr : Option ClrFrame) (dets : List Detection) :
    List Event :=
  match clr with
  | some cf => [Event.displayFrame "RGB Detection" cf.raw (some cf.fps) dets]
  | none => []

/-- One iteration of the `while True` loop (skeleton.py lines 148-196):
returns the updated state, the emitted events in order, and whether the
`break` on `q` fires; `none` models the uncaught `ZeroDivisionError`. -/
def loopStep (startTime : ℚ) (s : LoopState) (i : TickInput) :
    Option (LoopState × List Event × Bool) :=
  match processRGB startTime i.now s.counter s.clrFrame i.rgbMsg with
  | none => none
  | some newClr =>
    let newDets := detUpdate s.detections i.detMsg
    some ({ clrFrame := newClr,
            detections := newDets,
            counter := counterUpdate s.counter i.detMsg,
            printOutputLayersOnce := flagUpdate s.printOutputLayersOnce i.nnMsg },
          leftRightEvents i.leftMsg i.rightMsg ++
            nnPrintEvents s.printOutputLayersOnce i.nnMsg ++
            rgbRenderEvents newClr newDets,
          i.key == ordQ)

/-- The initial host-loop state (skeleton.py lines 137-145). -/
def initState (printFlag : Bool) : LoopState :=
  { clrFrame := none, detections := [], counter := 0,
    printOutputLayersOnce := printFlag }

/-- Outcome of running the loop on a finite prefix of tick inputs. -/
inductive RunResult where
  | crashed (events : List Event)
  | quitPressed (final : LoopState) (events : List Event)
  | ranOut (state : LoopState) (events : List Event)
  deriving DecidableEq, Repr

/-- The events a run emitted. -/
def RunResult.events : RunResult → List Event
  | .crashed evs => evs
  | .quitPressed _ evs => evs
  | .ranOut _ evs => evs

/-- Whether the run ended through the `break` on the quit key. -/
def RunResult.isQuit : RunResult → Bool
  | .quitPressed _ _ => true
  | _ => false

/-- Whether the run consumed every supplied tick with the loop still going. -/
def RunResult.isRanOut : RunResult → Bool
  | .ranOut _ _ => true
  | _ => false

/-- Prepend the events of one iteration to the outcome of the rest of the
run. -/
def seqEvents (evs : List Event) : RunResult → RunResult
  | .crashed evs2 => .crashed (evs ++ evs2)
  | .quitPressed sf evs2 => .quitPressed sf (evs ++ evs2)
  | .ranOut sf evs2 => .ranOut sf (evs ++ evs2)

/-- Run the `while True` loop over a list of tick inputs, stopping early at
the `break` (quit key) or an uncaught `ZeroDivisionError`; `ranOut` means
the supplied inputs were exhausted with the loop still going. -/
def loopRun (startTime : ℚ) : LoopState → List TickInput → RunResult
  | s, [] => .ranOut s []
  | s, i :: rest =>
    match loopStep startTime s i with
    | none => .crashed []
    | some (s', evs, quit) =>
      if quit then .quitPressed s' evs
      else seqEvents evs (loopRun startTime s' rest)

/-- Count of diagnostic layer-name dumps in an event list. -/
def countPrints (evs : List Event) : Nat :=
  evs.countP fun e =>
    match e with
    | .printLayerNames _ => true
    | _ => false

/-- Count of color-stream (`'RGB Detection'` window) render calls in an
event list. -/
def rgbRenderCount (evs : List Event) : Nat :=
  evs.countP fun e =>
    match e with
    | .displayFrame "RGB Detection" _ _ _ => true
    | _ => false

/-- A host-loop state in which a color frame was retrieved on an earlier
tick (and one detection message was seen). -/
def c1State : LoopState :=
  { clrFrame := some { raw := 1, fps := 5 }, detections := [], counter := 1,
    printOutputLayersOnce := false }

/-- A tick on which a detection message (two records) arrives but no
color-frame message does. -/
def c1Input : TickInput :=
  { leftMsg := none, rightMsg := none, rgbMsg := none, detMsg := some [7, 8],
    nnMsg := none, key := 0, now := 2 }

/-! ## Supporting lemmas -/

theorem loopStep_elim {startTime : ℚ} {s : LoopState} {i : TickInput}
    {s' : LoopState} {evs : List Event} {q : Bool}
    (h : loopStep startTime s i = some (s', evs, q)) :
    ∃ newClr,
      processRGB startTime i.now s.counter s.clrFrame i.rgbMsg = some newClr ∧
      s' = { clrFrame := newClr,
             detections := detUpdate s.detections i.detMsg,
             counter := counterUpdate s.counter i.detMsg,
             printOutputLayersOnce :=
               flagUpdate s.printOutputLayersOnce i.nnMsg } ∧
      evs = leftRightEvents i.leftMsg i.rightMsg ++
              nnPrintEvents s.printOutputLayersOnce i.nnMsg ++
              rgbRenderEvents newClr (detUpdate s.detections i.detMsg) ∧
      q = (i.key == ordQ) := by
  unfold loopStep at h
  cases hP : processRGB startTime i.now s.counter s.clrFrame i.rgbMsg with
  | none => rw [hP] at h; exact absurd h (by simp)
  | some newClr =>
    rw [hP] at h
    simp only [Option.some.injEq, Prod.mk.injEq] at h
    exact ⟨newClr, rfl, h.1.symm, h.2.1.symm, h.2.2.symm⟩

theorem countPrints_append (a b : List Event) :
    countPrints (a ++ b) = countPrints a + countPrints b :=
  List.countP_append _ _ _

theorem countPrints_leftRight (l r : Option RawFrame) :
    countPrints (leftRightEvents l r) = 0 := by
  cases l <;> cases r <;> rfl

theorem countPrints_rgbRender (clr : Option ClrFrame) (ds : List Detection) :
    countPrints (rgbRenderEvents clr ds) = 0 := by
  cases clr <;> rfl

theorem countPrints_nnPrint (flag : Bool) (m : Option NNData) :
    countPrints (nnPrintEvents flag m) =
      if flag = true ∧ m.isSome = true then 1 else 0 := by
  cases flag <;> cases m <;> simp [nnPrintEvents, countPrints]

theorem flagUpdate_eq (flag : Bool) (m : Option NNData) :
    flagUpdate flag m = (flag && !m.isSome) := by
  cases flag <;> cases m <;> rfl

theorem rgbRenderCount_append (a b : List Event) :
    rgbRenderCount (a ++ b) = rgbRenderCount a + rgbRenderCount b :=
  List.countP_append _ _ _

theorem rgbRenderCount_leftRight (l r : Option RawFrame) :
    rgbRenderCount (leftRightEvents l r) = 0 := by
  cases l <;> cases r <;> rfl

theorem rgbRenderCount_nnPrint (flag : Bool) (m : Option NNData) :
    rgbRenderCount (nnPrintEvents flag m) = 0 := by
  cases flag <;> cases m <;> rfl

theorem rgbRenderCount_rgbRender (clr : Option ClrFrame)
    (ds : List Detection) :
    rgbRenderCount (rgbRenderEvents clr ds) =
      if clr.isSome = true then 1 else 0 := by
  cases clr <;> rfl

theorem seqEvents_events (evs : List Event) (r : RunResult) :
    (seqEvents evs r).events = evs ++ r.events := by
  cases r <;> rfl

theorem seqEvents_isQuit (evs : List Event) (r : RunResult) :
    (seqEvents evs r).isQuit = r.isQuit := by
  cases r <;> rfl

theorem seqEvents_isRanOut (evs : List Event) (r : RunResult) :
    (seqEvents evs r).isRanOut = r.isRanOut := by
  cases r <;> rfl

theorem loopStep_none_elim {startTime : ℚ} {s : LoopState} {i : TickInput}
    (h : loopStep startTime s i = none) :
    i.rgbMsg.isSome = true ∧ i.now = startTime := by
  unfold loopStep at h
  cases hP : processRGB startTime i.now s.counter s.clrFrame i.rgbMsg with
  | some c => rw [hP] at h; simp at h
  | none =>
    unfold processRGB at hP
    cases hr : i.rgbMsg with
    | none => rw [hr] at hP; simp at hP
    | some f =>
      rw [hr] at hP
      by_cases hz : i.now - startTime = 0
      · exact ⟨by simp [hr], sub_eq_zero.mp hz⟩
      · simp [hz] at hP

theorem loopStep_latch {startTime : ℚ} {s : LoopState} {i : TickInput}
    {s' : LoopState} {evs : List Event} {q : Bool}
    (h : loopStep startTime s i = some (s', evs, q)) :
    countPrints evs + (if s'.printOutputLayersOnce = true then 1 else 0) =
      (if s.printOutputLayersOnce = true then 1 else 0) := by
  obtain ⟨c, hP, rfl, rfl, -⟩ := loopStep_elim h
  simp only [countPrints_append, countPrints_leftRight, countPrints_rgbRender,
    countPrints_nnPrint, flagUpdate_eq]
  cases s.printOutputLayersOnce <;> cases i.nnMsg <;> simp

theorem loopRun_print_bound (startTime : ℚ) :
    ∀ (inputs : List TickInput) (s : LoopState),
      countPrints ((loopRun startTime s inputs).events) ≤
        (if s.printOutputLayersOnce = true then 1 else 0) := by
  intro inputs
  induction inputs with
  | nil => intro s; simp [loopRun, RunResult.events, countPrints]
  | cons i rest ih =>
    intro s
    cases hstep : loopStep startTime s i with
    | none => simp [loopRun, hstep, RunResult.events, countPrints]
    | some t =>
      obtain ⟨s', evs, q⟩ := t
      have hlatch := loopStep_latch hstep
      have hrec := ih s'
      cases q with
      | true =>
        simp only [loopRun, hstep]
        cases hs : s.printOutputLayersOnce <;>
          cases hs' : s'.printOutputLayersOnce <;>
          simp [hs, hs', RunResult.events] at hlatch ⊢ <;> omega
      | false =>
        simp only [loopRun, hstep, Bool.false_eq_true, if_false,
          seqEvents_events, countPrints_append]
        cases hs : s.printOutputLayersOnce <;>
          cases hs' : s'.printOutputLayersOnce <;>
          simp [hs, hs'] at hlatch hrec ⊢ <;> omega

theorem loopRun_no_quit (startTime : ℚ) :
    ∀ (inputs : List TickInput) (s : LoopState),
      (∀ i ∈ inputs, i.key ≠ ordQ) →
      (loopRun startTime s inputs).isQuit = false := by
  intro inputs
  induction inputs with
  | nil => intro s _; rfl
  | cons i rest ih =>
    intro s h
    cases hstep : loopStep startTime s i with
    | none => simp [loopRun, hstep, RunResult.isQuit]
    | some t =>
      obtain ⟨s', evs, q⟩ := t
      obtain ⟨c, -, -, -, hq⟩ := loopStep_elim hstep
      have hkey : i.key ≠ ordQ := h i (by simp)
      have hqf : q = false := by
        rw [hq]; exact beq_eq_false_iff_ne.mpr hkey
      subst hqf
      simp only [loopRun, hstep, Bool.false_eq_true, if_false,
        seqEvents_isQuit]
      exact ih s' fun j hj => h j (by simp [hj])

theorem loopRun_no_early_exit (startTime : ℚ) :
    ∀ (inputs : List TickInput) (s : LoopState),
      (∀ i ∈ inputs, i.key ≠ ordQ) →
      (∀ i ∈ inputs, i.rgbMsg.isSome = true → i.now ≠ startTime) →
      (loopRun startTime s inputs).isRanOut = true := by
  intro inputs
  induction inputs with
  | nil => intro s _ _; rfl
  | cons i rest ih =>
    intro s h hc
    cases hstep : loopStep startTime s i with
    | none =>
      obtain ⟨hsome, hnow⟩ := loopStep_none_elim hstep
      exact absurd hnow (hc i (by simp) hsome)
    | some t =>
      obtain ⟨s', evs, q⟩ := t
      obtain ⟨c, -, -, -, hq⟩ := loopStep_elim hstep
      have hkey : i.key ≠ ordQ := h i (by simp)
      have hqf : q = false := by
        rw [hq]; exact beq_eq_false_iff_ne.mpr hkey
      subst hqf
      simp only [loopRun, hstep, Bool.false_eq_true, if_false,
        seqEvents_isRanOut]
      exact ih s' (fun j hj => h j (by simp [hj]))
        (fun j hj => hc j (by simp [hj]))

/-! ## Claim theorems -/

/-- Claim C2: on every tick where a color-frame message is present, the
stored latest color frame is replaced by that frame, with the FPS estimate
`counter / (now - startTime)` (detection counter over elapsed seconds since
loop start) drawn onto it as text — whatever the detection queue delivered
on that tick. -/
theorem color_frame_updated_with_fps (startTime : ℚ) (s : LoopState)
    (i : TickInput) (f : RawFrame) (s' : LoopState) (evs : List Event)
    (q : Bool) (hrgb : i.rgbMsg = some f)
    (h : loopStep startTime s i = some (s', evs, q)) :
    s'.clrFrame =
      some { raw := f, fps := (s.counter : ℚ) / (i.now - startTime) } := by
  obtain ⟨newClr, hP, rfl, -, -⟩ := loopStep_elim h
  rw [hrgb] at hP
  by_cases hz : i.now - startTime = 0
  · simp [processRGB, hz] at hP
  · simp only [processRGB, if_neg hz] at hP
    simpa using hP.symm

/-- Witness for C2 at a concrete tick: start time 0, state with counter 2,
a color frame with id 4 arriving at time 2 alongside a detection message. -/
theorem color_frame_updated_with_fps_witness :
    (LoopState.clrFrame
        { clrFrame := some { raw := 4, fps := 1 }, detections := [9],
          counter := 3, printOutputLayersOnce := false }) =
      some { raw := 4, fps := ((2 : Nat) : ℚ) / ((2 : ℚ) - 0) } := by
  refine color_frame_updated_with_fps 0
    { clrFrame := none, detections := [5], counter := 2,
      printOutputLayersOnce := false }
    { leftMsg := none, rightMsg := none, rgbMsg := some 4, detMsg := some [9],
      nnMsg := none, key := 0, now := 2 }
    4 _ [Event.displayFrame "RGB Detection" 4 (some 1) [9]] false rfl ?_
  simp [loopStep, processRGB, detUpdate, counterUpdate, flagUpdate,
    nnPrintEvents, rgbRenderEvents, leftRightEvents, ordQ]

/-- Claim C3: on every tick where a detection message is present, the stored
detections are replaced wholesale by the message's records and the counter
increments by exactly one, regardless of how many records (possibly zero)
the message holds. -/
theorem detection_message_replaces_and_increments (startTime : ℚ)
    (s : LoopState) (i : TickInput) (ds : List Detection) (s' : LoopState)
    (evs : List Event) (q : Bool) (hdet : i.detMsg = some ds)
    (h : loopStep startTime s i = some (s', evs, q)) :
    s'.detections = ds ∧ s'.counter = s.counter + 1 := by
  obtain ⟨newClr, -, rfl, -, -⟩ := loopStep_elim h
  simp [detUpdate, counterUpdate, hdet]

/-- Witness for C3 at a concrete tick: an empty detection message still
replaces the stored detections and bumps the counter. -/
theorem detection_message_replaces_and_increments_witness :
    (LoopState.detections
        { clrFrame := none, detections := [], counter := 8,
          printOutputLayersOnce := true }) = [] ∧
    (LoopState.counter
        { clrFrame := none, detections := [], counter := 8,
          printOutputLayersOnce := true }) = 7 + 1 := by
  refine detection_message_replaces_and_increments 0
    { clrFrame := none, detections := [3, 4], counter := 7,
      printOutputLayersOnce := true }
    { leftMsg := none, rightMsg := none, rgbMsg := none, detMsg := some [],
      nnMsg := none, key := 0, now := 1 }
    [] _ [] false rfl ?_
  simp [loopStep, processRGB, detUpdate, counterUpdate, flagUpdate,
    nnPrintEvents, rgbRenderEvents, leftRightEvents, ordQ]

/-- Claim C4: any queue that yields no message this tick leaves its piece of
host-loop state untouched — no color-frame message keeps `clrFrame`, no
detection message keeps `detections` and `counter`, no metadata message
keeps the print-once latch (the left/right queues hold no state at all). -/
theorem absent_message_leaves_state (startTime : ℚ) (s : LoopState)
    (i : TickInput) (s' : LoopState) (evs : List Event) (q : Bool)
    (h : loopStep startTime s i = some (s', evs, q)) :
    (i.rgbMsg = none → s'.clrFrame = s.clrFrame) ∧
    (i.detMsg = none → s'.detections = s.detections ∧ s'.counter = s.counter) ∧
    (i.nnMsg = none → s'.printOutputLayersOnce = s.printOutputLayersOnce) := by
  obtain ⟨newClr, hP, rfl, -, -⟩ := loopStep_elim h
  refine ⟨fun hr => ?_, fun hd => ?_, fun hn => ?_⟩
  · rw [hr] at hP
    simp only [processRGB, Option.some.injEq] at hP
    simp [hP.symm]
  · simp [detUpdate, counterUpdate, hd]
  · simp [flagUpdate_eq, hn]

/-- Witness for C4 at a concrete tick on which no queue has a message. -/
theorem absent_message_leaves_state_witness :
    (LoopState.clrFrame
        { clrFrame := some { raw := 2, fps := 3 }, detections := [1],
          counter := 5, printOutputLayersOnce := true }) =
      some { raw := 2, fps := 3 } ∧
    ((LoopState.detections
        { clrFrame := some { raw := 2, fps := 3 }, detections := [1],
          counter := 5, printOutputLayersOnce := true }) = [1] ∧
     (LoopState.counter
        { clrFrame := some { raw := 2, fps := 3 }, detections := [1],
          counter := 5, printOutputLayersOnce := true }) = 5) ∧
    (LoopState.printOutputLayersOnce
        { clrFrame := some { raw := 2, fps := 3 }, detections := [1],
          counter := 5, printOutputLayersOnce := true }) = true := by
  have hth := absent_message_leaves_state 0
    { clrFrame := some { raw := 2, fps := 3 }, detections := [1], counter := 5,
      printOutputLayersOnce := true }
    { leftMsg := none, rightMsg := none, rgbMsg := none, detMsg := none,
      nnMsg := none, key := 0, now := 1 }
    { clrFrame := some { raw := 2, fps := 3 }, detections := [1], counter := 5,
      printOutputLayersOnce := true }
    [Event.displayFrame "RGB Detection" 2 (some 3) [1]] false
    (by simp [loopStep, processRGB, detUpdate, counterUpdate, flagUpdate,
          nnPrintEvents, rgbRenderEvents, leftRightEvents, ordQ])
  exact ⟨hth.1 rfl, hth.2.1 rfl, hth.2.2 rfl⟩

/-- Claim C5: over any session the diagnostic layer-name dump happens at
most once; per tick it fires exactly when the print latch is still set and a
metadata message is present, after which the latch is cleared — and a
cleared latch never comes back, so later metadata messages are ignored. -/
theorem layer_dump_at_most_once (startTime : ℚ) (flag : Bool)
    (inputs : List TickInput) :
    countPrints ((loopRun startTime (initState flag) inputs).events) ≤ 1 ∧
    (∀ s i s' evs q, loopStep startTime s i = some (s', evs, q) →
      countPrints evs =
        (if s.printOutputLayersOnce = true ∧ i.nnMsg.isSome = true then 1
         else 0) ∧
      s'.printOutputLayersOnce =
        (s.printOutputLayersOnce && !i.nnMsg.isSome)) := by
  constructor
  · have hb := loopRun_print_bound startTime inputs (initState flag)
    cases flag <;> simp [initState] at hb ⊢ <;> omega
  · intro s i s' evs q h
    obtain ⟨c, hP, rfl, rfl, -⟩ := loopStep_elim h
    constructor
    · simp only [countPrints_append, countPrints_leftRight,
        countPrints_rgbRender, countPrints_nnPrint]
      omega
    · simp [flagUpdate_eq]

/-- Witness for C5 on a concrete two-tick session with the flag set. -/
theorem layer_dump_at_most_once_witness :
    countPrints ((loopRun 0 (initState true)
      [{ leftMsg := none, rightMsg := none, rgbMsg := none, detMsg := none,
         nnMsg := some 6, key := 0, now := 1 },
       { leftMsg := none, rightMsg := none, rgbMsg := none, detMsg := none,
         nnMsg := some 7, key := 0, now := 2 }]).events) ≤ 1 :=
  (layer_dump_at_most_once 0 true _).1

/-- Claim C6: whenever the color stream is rendered, the render shows the
held most-recent color frame (with its FPS text) and passes the held
most-recent detection set as the overlay, with no matching between the two
streams; conversely the render occurs whenever a color frame is held. -/
theorem rgb_render_pairs_latest (startTime : ℚ) (s : LoopState)
    (i : TickInput) (s' : LoopState) (evs : List Event) (q : Bool)
    (h : loopStep startTime s i = some (s', evs, q)) :
    (∀ f fo ds, Event.displayFrame "RGB Detection" f fo ds ∈ evs →
      ds = s'.detections ∧ s'.clrFrame.map ClrFrame.raw = some f ∧
      fo = s'.clrFrame.map ClrFrame.fps) ∧
    (∀ cf, s'.clrFrame = some cf →
      Event.displayFrame "RGB Detection" cf.raw (some cf.fps)
        s'.detections ∈ evs) := by
  obtain ⟨c, hP, rfl, rfl, -⟩ := loopStep_elim h
  constructor
  · intro f fo ds hmem
    simp only [List.mem_append] at hmem
    rcases hmem with (hmem | hmem) | hmem
    · exfalso
      revert hmem
      cases i.leftMsg <;> cases i.rightMsg <;> simp [leftRightEvents]
    · exfalso
      revert hmem
      cases s.printOutputLayersOnce <;> cases i.nnMsg <;> simp [nnPrintEvents]
    · revert hmem
      cases c with
      | none => simp [rgbRenderEvents]
      | some cf =>
        simp only [rgbRenderEvents, List.mem_singleton,
          Event.displayFrame.injEq]
        rintro ⟨-, rfl, rfl, rfl⟩
        simp
  · intro cf hcf
    have hc : c = some cf := by simpa using hcf
    simp [hc, rgbRenderEvents, List.mem_append]

/-- Witness for C6 at a concrete tick carrying both a color frame and a
detection message. -/
theorem rgb_render_pairs_latest_witness :
    Event.displayFrame "RGB Detection" 4 (some 0) [2] ∈
      [Event.displayFrame "RGB Detection" 4 (some 0) [2]] :=
  (rgb_render_pairs_latest 0 (initState false)
    { leftMsg := none, rightMsg := none, rgbMsg := some 4, detMsg := some [2],
      nnMsg := none, key := 0, now := 1 }
    { clrFrame := some { raw := 4, fps := 0 }, detections := [2], counter := 1,
      printOutputLayersOnce := false }
    [Event.displayFrame "RGB Detection" 4 (some 0) [2]] false
    (by simp [loopStep, processRGB, detUpdate, counterUpdate, flagUpdate,
          nnPrintEvents, rgbRenderEvents, leftRightEvents, ordQ, initState])).2
    { raw := 4, fps := 0 } rfl

/-- Claim C7: every left or right mono frame retrieved on a tick is rendered
on that same tick with an empty annotation list, and every render in the
`Left` or `Right` window carries an empty detection list and no FPS text,
whatever the detection state is. -/
theorem left_right_rendered_unannotated (startTime : ℚ) (s : LoopState)
    (i : TickInput) (s' : LoopState) (evs : List Event) (q : Bool)
    (h : loopStep startTime s i = some (s', evs, q)) :
    (∀ f, i.leftMsg = some f → Event.displayFrame "Left" f none [] ∈ evs) ∧
    (∀ f, i.rightMsg = some f → Event.displayFrame "Right" f none [] ∈ evs) ∧
    (∀ w f fo ds, Event.displayFrame w f fo ds ∈ evs →
      w = "Left" ∨ w = "Right" → ds = [] ∧ fo = none) := by
  obtain ⟨c, hP, rfl, rfl, -⟩ := loopStep_elim h
  refine ⟨fun f hf => ?_, fun f hf => ?_, fun w f fo ds hmem hw => ?_⟩
  · simp [leftRightEvents, hf, List.mem_append]
  · cases hl : i.leftMsg <;>
      simp [leftRightEvents, hl, hf, List.mem_append]
  · simp only [List.mem_append] at hmem
    rcases hmem with (hmem | hmem) | hmem
    · revert hmem
      cases i.leftMsg <;> cases i.rightMsg <;>
        simp [leftRightEvents, Event.displayFrame.injEq] <;> tauto
    · exfalso
      revert hmem
      cases s.printOutputLayersOnce <;> cases i.nnMsg <;> simp [nnPrintEvents]
    · exfalso
      revert hmem
      cases c with
      | none => simp [rgbRenderEvents]
      | some cf =>
        simp only [rgbRenderEvents, List.mem_singleton,
          Event.displayFrame.injEq]
        rintro ⟨rfl, -⟩
        rcases hw with hw | hw <;> simp at hw

/-- Witness for C7 at a concrete tick carrying a left mono frame. -/
theorem left_right_rendered_unannotated_witness :
    Event.displayFrame "Left" 3 none [] ∈
      [Event.displayFrame "Left" 3 none [],
       Event.displayFrame "Right" 4 none []] :=
  (left_right_rendered_unannotated 0 (initState false)
    { leftMsg := some 3, rightMsg := some 4, rgbMsg := none, detMsg := none,
      nnMsg := none, key := 0, now := 1 }
    (initState false)
    [Event.displayFrame "Left" 3 none [],
     Event.displayFrame "Right" 4 none []] false
    (by simp [loopStep, processRGB, detUpdate, counterUpdate, flagUpdate,
          nnPrintEvents, rgbRenderEvents, leftRightEvents, ordQ,
          initState])).1 3 rfl

/-- Claim C8: the loop exits only through the key poll: over any run where no
tick reports the quit key the run never ends in the quit branch, and if in
addition no tick trips the FPS division crash, every supplied tick gets
consumed with the loop still going; each iteration's break decision is
exactly the test of the polled key against the quit key. -/
theorem quit_key_sole_exit (startTime : ℚ) (s : LoopState)
    (inputs : List TickInput) :
    ((∀ i ∈ inputs, i.key ≠ ordQ) →
      (loopRun startTime s inputs).isQuit = false) ∧
    ((∀ i ∈ inputs, i.key ≠ ordQ) →
      (∀ i ∈ inputs, i.rgbMsg.isSome = true → i.now ≠ startTime) →
      (loopRun startTime s inputs).isRanOut = true) ∧
    (∀ s0 i s' evs q, loopStep startTime s0 i = some (s', evs, q) →
      (q = true ↔ i.key = ordQ)) := by
  refine ⟨fun h => loopRun_no_quit startTime inputs s h,
          fun h hc => loopRun_no_early_exit startTime inputs s h hc,
          fun s0 i s' evs q h => ?_⟩
  obtain ⟨c, -, -, -, hq⟩ := loopStep_elim h
  subst hq
  exact beq_iff_eq

/-- Witness for C8 on a concrete one-tick session without the quit key. -/
theorem quit_key_sole_exit_witness :
    (loopRun 0 (initState false)
      [{ leftMsg := none, rightMsg := none, rgbMsg := none, detMsg := none,
         nnMsg := none, key := 0, now := 1 }]).isQuit = false :=
  (quit_key_sole_exit 0 (initState false) _).1 (by decide)

/-- Claim C9: pipeline construction is deterministic and depends only on the
builder-relevant configuration values (preview size, interleave flag,
confidence threshold, inference thread count, model path — resolution and
color order being hard-coded): two configurations agreeing on those produce
the same pipeline description, whatever the remaining entries (queue depth,
blocking mode, text color, print flag) are; being a plain function of the
configuration, the builder has no side effect beyond construction. -/
theorem setup_pipeline_deterministic (c1 c2 : Config)
    (h1 : c1.COLOR_CAMERA_PREVIEW_SIZE = c2.COLOR_CAMERA_PREVIEW_SIZE)
    (h2 : c1.CAMERA_INTERLEAVED = c2.CAMERA_INTERLEAVED)
    (h3 : c1.NN_THRESHOLD = c2.NN_THRESHOLD)
    (h4 : c1.INFERENCE_THREADS = c2.INFERENCE_THREADS)
    (h5 : c1.MOBILENET_DETECTION_MODEL_PATH =
      c2.MOBILENET_DETECTION_MODEL_PATH) :
    setup_pipeline c1 = setup_pipeline c2 := by
  simp [setup_pipeline, h1, h2, h3, h4, h5]

/-- Witness for C9: two configurations differing only in queue depth,
blocking mode, text color and print flag yield the same pipeline. -/
theorem setup_pipeline_deterministic_witness :
    setup_pipeline
      { COLOR_CAMERA_PREVIEW_SIZE := (300, 300), CAMERA_INTERLEAVED := false,
        NN_THRESHOLD := 1 / 2, INFERENCE_THREADS := 2,
        MOBILENET_DETECTION_MODEL_PATH := "mobilenet.blob",
        COLOR_CAMERA_QUEUE_SIZE := 4, QUEUE_BLOCKING := false,
        TEXT_COLOR2 := (255, 0, 0), PRINT_NEURAL_NETWORK_METADATA := true } =
    setup_pipeline
      { COLOR_CAMERA_PREVIEW_SIZE := (300, 300), CAMERA_INTERLEAVED := false,
        NN_THRESHOLD := 1 / 2, INFERENCE_THREADS := 2,
        MOBILENET_DETECTION_MODEL_PATH := "mobilenet.blob",
        COLOR_CAMERA_QUEUE_SIZE := 8, QUEUE_BLOCKING := true,
        TEXT_COLOR2 := (0, 255, 0), PRINT_NEURAL_NETWORK_METADATA := false } :=
  setup_pipeline_deterministic _ _ rfl rfl rfl rfl rfl

/-- Claim C10: the FPS computation performed when a color frame arrives has
no guard against a zero elapsed time: assuming the monotonic reading is at
least the loop-start timestamp, the computation succeeds (does not raise
`ZeroDivisionError`) precisely when the elapsed time is strictly positive. -/
theorem fps_requires_positive_elapsed (startTime now : ℚ) (counter : Nat)
    (clr : Option ClrFrame) (f : RawFrame) (h : startTime ≤ now) :
    ((processRGB startTime now counter clr (some f)).isSome = true) ↔
      startTime < now := by
  by_cases hz : now - startTime = 0
  · have hle : now = startTime := sub_eq_zero.mp hz
    simp [processRGB, hz, hle]
  · simp only [processRGB, if_neg hz, Option.isSome_some, true_iff]
    exact lt_of_le_of_ne h fun e => hz (by rw [e]; ring)

/-- Witness for C10 at start time 0 and reading 1. -/
theorem fps_requires_positive_elapsed_witness :
    ((processRGB 0 1 3 none (some 5)).isSome = true) ↔ (0 : ℚ) < 1 :=
  fps_requires_positive_elapsed 0 1 3 none 5 zero_le_one

/-- Counterexample to claim C1 as stated: at the concrete state `c1State`
(a color frame with id 1 cached on an earlier tick) and tick `c1Input`
(a detection message with two records, no color-frame message), the
iteration DOES make a color-stream render call — the event list contains a
`'RGB Detection'` display of the cached frame — so the frame is not held
only for one iteration's rendering. -/
theorem stale_frame_rerender_counterexample :
    loopStep 0 c1State c1Input =
      some ({ clrFrame := some { raw := 1, fps := 5 }, detections := [7, 8],
              counter := 2, printOutputLayersOnce := false },
            [Event.displayFrame "RGB Detection" 1 (some 5) [7, 8]],
            false) := by
  decide

/-- Claim C1 (amended): on a tick where a detection message arrives but no
color-frame message does, with a color frame cached from an earlier tick,
exactly one color-stream render call is made, showing the cached
most-recent frame annotated with the just-received detections; the cached
frame itself survives the iteration unchanged (caching stays limited to the
single most-recent color frame). -/
theorem stale_frame_rerendered (startTime : ℚ) (s : LoopState)
    (i : TickInput) (cf : ClrFrame) (ds : List Detection) (s' : LoopState)
    (evs : List Event) (q : Bool) (hclr : s.clrFrame = some cf)
    (hrgb : i.rgbMsg = none) (hdet : i.detMsg = some ds)
    (h : loopStep startTime s i = some (s', evs, q)) :
    s'.clrFrame = some cf ∧ s'.detections = ds ∧
    Event.displayFrame "RGB Detection" cf.raw (some cf.fps) ds ∈ evs ∧
    rgbRenderCount evs = 1 := by
  obtain ⟨c, hP, rfl, rfl, -⟩ := loopStep_elim h
  rw [hrgb] at hP
  simp only [processRGB, Option.some.injEq] at hP
  have hc : c = some cf := by rw [← hP, hclr]
  refine ⟨by simp [hc], by simp [detUpdate, hdet], ?_, ?_⟩
  · simp [hc, detUpdate, hdet, rgbRenderEvents, List.mem_append]
  · simp [rgbRenderCount_append, rgbRenderCount_leftRight,
      rgbRenderCount_nnPrint, rgbRenderCount_rgbRender, hc]

/-- Witness for the amended C1 at the same concrete state and tick as the
counterexample. -/
theorem stale_frame_rerendered_witness :
    (LoopState.clrFrame
        { clrFrame := some { raw := 1, fps := 5 }, detections := [7, 8],
          counter := 2, printOutputLayersOnce := false }) =
      some { raw := 1, fps := 5 } ∧
    (LoopState.detections
        { clrFrame := some { raw := 1, fps := 5 }, detections := [7, 8],
          counter := 2, printOutputLayersOnce := false }) = [7, 8] ∧
    Event.displayFrame "RGB Detection" 1 (some 5) [7, 8] ∈
      [Event.displayFrame "RGB Detection" 1 (some 5) [7, 8]] ∧
    rgbRenderCount [Event.displayFrame "RGB Detection" 1 (some 5) [7, 8]] =
      1 :=
  stale_frame_rerendered 0 c1State c1Input { raw := 1, fps := 5 } [7, 8]
    { clrFrame := some { raw := 1, fps := 5 }, detections := [7, 8],
      counter := 2, printOutputLayersOnce := false }
    [Event.displayFrame "RGB Detection" 1 (some 5) [7, 8]] false
    rfl rfl rfl (by decide)

end OakD
